import Mathlib

/-!
# Verification of the media-processor scene-composition compiler

Shallow embedding of the parts of the repository that the frozen claims
are about:

* `src/utils/geometry.ts` (both the worker variant and the utils variant):
  the clamp family and `clampBoxToCanvas`;
* `src/config/media.ts`: `rgbaToFFmpegColor` including its regex matcher;
* `src/processors/baseProcessor.ts` and the `ImageProcessor.process`
  assembly in `src/app.ts` (image composition builder);
* `src/worker/video.ts` (worker composition builder): `prepareText`,
  font-size and line-spacing computation;
* `src/app.ts` `VideoProcessor.tryVideoEncoding` (encoding fallback);
* `src/services/jobService/inMemory/InMemoryJobService.ts`: `addJob`,
  `getJobStatusByIds`, `cleanupJobStream`.

JavaScript numbers are modelled as `JSNum` (NaN, the two infinities, or an
exact rational) where NaN/infinity behaviour matters, and as plain `ℚ`
inside the filter-string builders, which the claims only exercise at
finite values.  `Math.round` is `⌊q + 1/2⌋` (ECMAScript rounds ties toward
+∞).  Rendering of irrational intermediate values (the rotation angle
`r·π/180`) uses an exact-decimal printer over the binary64 value of
`Math.PI`; no claim inspects those digits.
-/

/-! ## Rational-valued helpers used inside the filter-string builders

The composition builders only ever feed finite numbers into these helpers
(the claims below exercise them at concrete finite scenes), so they are
embedded over `ℚ` directly.  The library's `+ - * /` on `ℚ` are
irreducible, so the same operations are spelled out through `Rat.divInt`
(`qAdd`, `qSub`, `qMul`, `qDiv`); the theorems `qAdd_eq`, `qSub_eq`,
`qMul_eq`, `qDiv_eq`, `ratFloor_eq` and `jround_eq` below prove them
equal to the standard operations. -/

def qAdd (a b : ℚ) : ℚ := Rat.divInt (a.num * b.den + b.num * a.den) (a.den * b.den)

def qSub (a b : ℚ) : ℚ := Rat.divInt (a.num * b.den - b.num * a.den) (a.den * b.den)

def qMul (a b : ℚ) : ℚ := Rat.divInt (a.num * b.num) (a.den * b.den)

def qDiv (a b : ℚ) : ℚ := Rat.divInt (a.num * b.den) (a.den * b.num)

/-- `Math.round` on a finite value: round half toward +∞. -/
def jround (q : ℚ) : ℤ := Rat.floor (qAdd q (Rat.divInt 1 2))

/-- `String(n)` for an integer-valued number. -/
def intStr (n : ℤ) : String := toString n

/-- Exact decimal printing of a rational, used for JavaScript number
interpolation.  Finds the least number of fractional digits (up to 25)
that renders the value exactly; values that are not finite decimals are
truncated at 25 digits (no claim depends on those digits). -/
def decimalDigitsAux : ℕ → ℚ → List Char
  | 0, _ => []
  | Nat.succ fuel, q =>
    if q = 0 then []
    else
      let q10 := qMul q 10
      let d := Rat.floor q10
      Char.ofNat (48 + d.toNat) :: decimalDigitsAux fuel (qSub q10 (d : ℚ))

/-- Decimal rendering of a rational number in JavaScript style
(`intPart.fracPart`, no trailing zeros; integers render bare). -/
def decimalRepr (q : ℚ) : String :=
  if q.den = 1 then intStr q.num
  else
    let sign := if q < 0 then "-" else ""
    let a := |q|
    let ip := Rat.floor a
    let frac := qSub a (ip : ℚ)
    sign ++ intStr ip ++ "." ++ ⟨decimalDigitsAux 25 frac⟩

/-- `toExpression(value)` from `src/utils/geometry.ts` / `toExpr` from the
workers: integers render without decimals, other values with `toFixed(4)`. -/
def toExpression (q : ℚ) : String :=
  if q.den = 1 then intStr q.num
  else
    let sign := if q < 0 then "-" else ""
    let a := |q|
    let scaled : ℤ := jround (qMul a 10000)
    let ip := scaled / 10000
    let fp := (scaled % 10000).toNat
    sign ++ intStr ip ++ "." ++ (String.mk (Nat.toDigits 10 fp)).leftpad 4 '0'

/-- `clampFloat` restricted to finite values (NaN cannot arise in `ℚ`). -/
def clampFloatQ (n mn mx : ℚ) : ℚ := min mx (max mn n)

/-- `toPixels(value, total)` / `toPx` on finite values: ratios (≤ 1)
scale by the total, larger values are absolute pixels. -/
def toPixelsQ (value total : ℚ) : ℚ :=
  if value ≤ 1 then qMul value total else value

/-- The exact rational value of the binary64 constant `Math.PI`. -/
def piQ : ℚ := Rat.divInt 884279719003555 281474976710656

/-- The angle `(rotation * Math.PI) / 180` interpolated into a rotate
step. -/
def degToRad (rotation : ℚ) : ℚ := qDiv (qMul rotation piQ) 180

/-- Rendering of a JavaScript number into a template literal; exact for
integers and finite decimals (see `decimalRepr`). -/
def jsLit (q : ℚ) : String := decimalRepr q

/-- A JavaScript number: NaN, +∞, −∞, or a finite value (kept exact as a
rational; the claims below never depend on binary64 rounding). -/
inductive JSNum where
  | nan
  | posInf
  | negInf
  | fin (q : ℚ)
deriving DecidableEq

namespace JSNum

/-- ECMAScript `Math.max` (binary case): NaN if either argument is NaN. -/
def jsMax : JSNum → JSNum → JSNum
  | nan, _ => nan
  | _, nan => nan
  | posInf, _ => posInf
  | _, posInf => posInf
  | negInf, b => b
  | a, negInf => a
  | fin a, fin b => fin (max a b)

/-- ECMAScript `Math.min` (binary case): NaN if either argument is NaN. -/
def jsMin : JSNum → JSNum → JSNum
  | nan, _ => nan
  | _, nan => nan
  | negInf, _ => negInf
  | _, negInf => negInf
  | posInf, b => b
  | a, posInf => a
  | fin a, fin b => fin (min a b)

/-- ECMAScript `Math.round`: NaN and infinities pass through; finite
values round half toward +∞. -/
def jsRound : JSNum → JSNum
  | nan => nan
  | posInf => posInf
  | negInf => negInf
  | fin q => fin (jround q)

/-- `a - b` with JavaScript special-value rules (only the finite case is
exercised by the claims). -/
def jsSub : JSNum → JSNum → JSNum
  | nan, _ => nan
  | _, nan => nan
  | posInf, posInf => nan
  | posInf, _ => posInf
  | negInf, negInf => nan
  | negInf, _ => negInf
  | fin _, posInf => negInf
  | fin _, negInf => posInf
  | fin a, fin b => fin (qSub a b)

/-- `Number.isNaN`. -/
def isNaN : JSNum → Bool
  | nan => true
  | _ => false

/-- `Number.isFinite`. -/
def isFinite : JSNum → Bool
  | fin _ => true
  | _ => false

end JSNum

open JSNum

/-! ## `src/utils/geometry.ts` (utils variant) -/

namespace Geometry

/-- A canvas as used by the utils geometry helpers (`{width, height}`). -/
structure Canvas where
  width : JSNum
  height : JSNum
deriving DecidableEq

/-- `clamp(value, min, max) = Math.min(max, Math.max(min, value))`. -/
def clamp (value mn mx : JSNum) : JSNum :=
  jsMin mx (jsMax mn value)

/-- `clampInt(value, min, max) = Math.max(min, Math.min(max, Math.round(value)))`. -/
def clampInt (value mn mx : JSNum) : JSNum :=
  jsMax mn (jsMin mx (jsRound value))

/-- `clampFloat(value, min, max)`: NaN input returns `min`, otherwise
`Math.min(max, Math.max(min, value))`. -/
def clampFloat (value mn mx : JSNum) : JSNum :=
  if value.isNaN then mn else jsMin mx (jsMax mn value)

/-- The box returned by `clampBoxToCanvas`. -/
structure Box where
  x : JSNum
  y : JSNum
  width : JSNum
  height : JSNum
deriving DecidableEq

/-- `clampBoxToCanvas(x, y, width, height, canvas)` from
`src/utils/geometry.ts`: width/height clamped into `[1, canvas.dim]`,
then x/y clamped into `[0, canvas.dim - clamped size]`. -/
def clampBoxToCanvas (x y width height : JSNum) (canvas : Canvas) : Box :=
  let clampedWidth := clampInt width (fin 1) canvas.width
  let clampedHeight := clampInt height (fin 1) canvas.height
  let clampedX := clampInt x (fin 0) (jsSub canvas.width clampedWidth)
  let clampedY := clampInt y (fin 0) (jsSub canvas.height clampedHeight)
  ⟨clampedX, clampedY, clampedWidth, clampedHeight⟩

end Geometry

/-! ## `src/utils/geometry.ts` (worker variant, default canvas 1080×1920) -/

namespace WorkerGeometry

def CANVAS_W : JSNum := fin 1080
def CANVAS_H : JSNum := fin 1920

/-- Worker `clampInt`, identical formula to the utils variant. -/
def clampInt (n mn mx : JSNum) : JSNum :=
  jsMax mn (jsMin mx (jsRound n))

/-- Worker `clampBoxToCanvas(x,y,w,h, canvasW?, canvasH?)`; the canvas
parameters default to `CANVAS_W`/`CANVAS_H`. -/
def clampBoxToCanvas (x y w h : JSNum)
    (canvasW : JSNum := CANVAS_W) (canvasH : JSNum := CANVAS_H) :
    Geometry.Box :=
  let W := clampInt w (fin 1) canvasW
  let H := clampInt h (fin 1) canvasH
  let X := clampInt x (fin 0) (jsSub canvasW W)
  let Y := clampInt y (fin 0) (jsSub canvasH H)
  ⟨X, Y, W, H⟩

end WorkerGeometry

/-! ## Text and path escaping

`BaseProcessor.escapeText` / `escapePath` from
`src/processors/baseProcessor.ts` and `prepareText` / `escapePath` from
`src/worker/video.ts`.  JavaScript `replace` chains are embedded as
sequential whole-string passes in source order. -/

/-- One `.replace(/c/g, repl)` pass over the characters of a string. -/
def replaceChar (target : Char) (repl : List Char) : List Char → List Char
  | [] => []
  | c :: rest => (if c = target then repl else [c]) ++ replaceChar target repl rest

/-- The character class `\s` of JavaScript regular expressions. -/
def isJsSpace (c : Char) : Bool :=
  c = ' ' || c = '\t' || c = '\n' || c = '\x0b' || c = '\x0c' || c = '\r' ||
  c = ' ' || c = ' ' ||
  (' ' ≤ c && c ≤ ' ') ||
  c = ' ' || c = ' ' || c = ' ' || c = ' ' ||
  c = '　' || c = '﻿'

/-- Length of a `<br\s*\/?>` token (case-insensitive) starting at the head
of the list, if one is present. -/
def brTokenLength (l : List Char) : Option ℕ :=
  match l with
  | a :: b :: r :: rest =>
    if a = '<' && b.toLower = 'b' && r.toLower = 'r' then
      let ns := (rest.takeWhile isJsSpace).length
      match rest.drop ns with
      | '/' :: '>' :: _ => some (3 + ns + 2)
      | '>' :: _ => some (3 + ns + 1)
      | _ => none
    else none
  | _ => none

/-- `.replace(/<br\s*\/?>/gi, repl)`: fuel-indexed scan (the fuel is the
input length; each replacement consumes at least four characters). -/
def replaceBrAux (repl : List Char) : ℕ → List Char → List Char
  | _, [] => []
  | 0, l => l
  | Nat.succ fuel, c :: rest =>
    match brTokenLength (c :: rest) with
    | some n => repl ++ replaceBrAux repl fuel ((c :: rest).drop n)
    | none => c :: replaceBrAux repl fuel rest

def replaceBr (repl : List Char) (l : List Char) : List Char :=
  replaceBrAux repl l.length l

namespace BaseProcessor

/-- `escapeText` from `src/processors/baseProcessor.ts`:
backslash → `\\`, `%` → `\%`, `:` → `\:`, `'` → `'\\''` (a quote, two
backslashes, two quotes — the JavaScript literal `"'\\\\''"`), and
`<br>`-tokens → the two characters `\` `n` (the literal `'\\n'`). -/
def escapeText (text : String) : String :=
  ⟨replaceBr ['\\', 'n']
    (replaceChar '\'' ['\'', '\\', '\\', '\'', '\'']
      (replaceChar ':' ['\\', ':']
        (replaceChar '%' ['\\', '%']
          (replaceChar '\\' ['\\', '\\'] text.toList))))⟩

/-- `escapePath` from `src/processors/baseProcessor.ts`. -/
def escapePath (filePath : String) : String :=
  ⟨replaceChar '\'' ['\\', '\'']
    (replaceChar ':' ['\\', ':']
      (replaceChar '\\' ['\\', '\\'] filePath.toList))⟩

end BaseProcessor

namespace WorkerVideo

/-- Result record of `prepareText` from `src/worker/video.ts`. -/
structure PreparedText where
  textEscaped : String
  lines : ℕ
  rawText : String
deriving DecidableEq

/-- `prepareText` from `src/worker/video.ts`: first normalises
`<br>`-tokens to real newlines, counts lines, then escapes
backslash → `\\`, `%` → `\%`, `:` → `\:`, `'` → `'\''` (four characters)
and maps newline to itself. -/
def prepareText (raw : String) : PreparedText :=
  let normalized := replaceBr ['\n'] raw.toList
  let lines := (normalized.filter (· = '\n')).length + 1
  let escaped :=
    replaceChar '\n' ['\n']
      (replaceChar '\'' ['\'', '\\', '\'', '\'']
        (replaceChar ':' ['\\', ':']
          (replaceChar '%' ['\\', '%']
            (replaceChar '\\' ['\\', '\\'] normalized))))
  ⟨⟨escaped⟩, lines, ⟨normalized⟩⟩

/-- `escapePath` from `src/worker/video.ts` (same formula as the base
processor's). -/
def escapePath (p : String) : String :=
  ⟨replaceChar '\'' ['\\', '\'']
    (replaceChar ':' ['\\', ':']
      (replaceChar '\\' ['\\', '\\'] p.toList))⟩

end WorkerVideo

/-! ## `src/config/media.ts`: `rgbaToFFmpegColor`

The regex
`/rgba?\s*\(\s*([\d.]+)\s*,\s*([\d.]+)\s*,\s*([\d.]+)(?:\s*,\s*([\d.]+))?\s*\)/i`
is embedded as a deterministic matcher.  All character classes involved
(`\s`, `[\d.]`, `,`, `(`, `)`) are pairwise disjoint, so greedy matching
without backtracking is exactly the regex's behaviour; the leftmost match
is found by trying every start position in order, as
`String.prototype.match` does. -/

namespace MediaColor

/-- The character class `[\d.]`. -/
def isDigitDot (c : Char) : Bool := c.isDigit || c = '.'

/-- Numeric value of a string of decimal digits. -/
def digitsVal (l : List Char) : ℕ :=
  l.foldl (fun a c => a * 10 + (c.toNat - 48)) 0

/-- `Number(s)` for a string matched by `[\d.]+`: a valid decimal has at
most one dot and at least one digit; anything else (e.g. `"."` or
`"1.2.3"`) is NaN, modelled as `none`. -/
def jsNumber (s : List Char) : Option ℚ :=
  if s.all isDigitDot ∧ s.countP (fun c => c = '.') ≤ 1 ∧
      1 ≤ s.countP (fun c => c.isDigit) then
    let ip := s.takeWhile (fun c => c.isDigit)
    let rest := s.dropWhile (fun c => c.isDigit)
    let fp := rest.drop 1
    some (qAdd ((digitsVal ip : ℕ) : ℚ) (Rat.divInt (digitsVal fp) ((10 ^ fp.length : ℕ) : ℤ)))
  else none

def skipSpaces (l : List Char) : List Char := l.dropWhile isJsSpace

/-- Greedy `([\d.]+)`: the captured component and the remainder. -/
def takeComp (l : List Char) : Option (List Char × List Char) :=
  let comp := l.takeWhile isDigitDot
  if comp.length = 0 then none else some (comp, l.drop comp.length)

/-- Attempt the rgba regex at the head of the list, returning the four
capture groups (the alpha group optional). -/
def matchRgbaAt (s : List Char) :
    Option (List Char × List Char × List Char × Option (List Char)) :=
  match s with
  | r :: g :: b :: rest =>
    if r.toLower = 'r' && g.toLower = 'g' && b.toLower = 'b' then
      let rest1 := match rest with
        | a :: t => if a.toLower = 'a' then t else rest
        | [] => rest
      match skipSpaces rest1 with
      | '(' :: r2 =>
        match takeComp (skipSpaces r2) with
        | none => none
        | some (c1, r3) =>
          match skipSpaces r3 with
          | ',' :: r4 =>
            match takeComp (skipSpaces r4) with
            | none => none
            | some (c2, r5) =>
              match skipSpaces r5 with
              | ',' :: r6 =>
                match takeComp (skipSpaces r6) with
                | none => none
                | some (c3, r7) =>
                  match skipSpaces r7 with
                  | ',' :: r8 =>
                    match takeComp (skipSpaces r8) with
                    | none => none
                    | some (c4, r9) =>
                      match skipSpaces r9 with
                      | ')' :: _ => some (c1, c2, c3, some c4)
                      | _ => none
                  | ')' :: _ => some (c1, c2, c3, none)
                  | _ => none
              | _ => none
          | _ => none
      | _ => none
    else none
  | _ => none

/-- Leftmost match of the rgba regex (`String.prototype.match` without
the global flag). -/
def searchRgba : List Char →
    Option (List Char × List Char × List Char × Option (List Char))
  | [] => none
  | c :: rest =>
    match matchRgbaAt (c :: rest) with
    | some groups => some groups
    | none => searchRgba rest

/-- `clamp255(Number(component))`; NaN (`none`) propagates through
`Math.round`/`Math.min`/`Math.max`. -/
def clamp255 (n : Option ℚ) : Option ℤ :=
  n.map (fun v => max 0 (min 255 (jround v)))

/-- `clampAlpha`; NaN propagates. -/
def clampAlpha (a : Option ℚ) : Option ℚ :=
  a.map (fun v => max 0 (min 1 v))

/-- `n.toString(16).padStart(2, '0').toUpperCase()`; on NaN JavaScript
yields the three-character string `"NAN"`. -/
def toHex (n : Option ℤ) : String :=
  match n with
  | none => "NAN"
  | some v => String.mk ((List.leftpad 2 '0' (Nat.toDigits 16 v.toNat)).map Char.toUpper)

/-- Template-literal rendering of the clamped alpha (`"NaN"` on NaN). -/
def alphaStr (a : Option ℚ) : String :=
  match a with
  | none => "NaN"
  | some v => decimalRepr v

def isHexChar (c : Char) : Bool :=
  c.isDigit || ('a' ≤ c && c ≤ 'f') || ('A' ≤ c && c ≤ 'F')

/-- The test `/^#?[0-9a-fA-F]{6}$/`. -/
def hexSixTest (l : List Char) : Bool :=
  match l with
  | '#' :: rest => rest.length = 6 && rest.all isHexChar
  | _ => l.length = 6 && l.all isHexChar

/-- `String.prototype.trim`. -/
def jsTrim (l : List Char) : List Char :=
  ((l.dropWhile isJsSpace).reverse.dropWhile isJsSpace).reverse

/-- `rgbaToFFmpegColor` from `src/config/media.ts` (the worker files
carry the same algorithm): rgba/rgb first, then 6-digit hex, then the
opaque-white fallback. -/
def rgbaToFFmpegColor (rgba : String) : String :=
  match searchRgba rgba.toList with
  | some (c1, c2, c3, c4) =>
    let r := clamp255 (jsNumber c1)
    let g := clamp255 (jsNumber c2)
    let b := clamp255 (jsNumber c3)
    let a := clampAlpha (match c4 with | some s => jsNumber s | none => some 1)
    "0x" ++ toHex r ++ toHex g ++ toHex b ++ "@" ++ alphaStr a
  | none =>
    let hexMatch := jsTrim rgba.toList
    if hexSixTest hexMatch then
      let h := match hexMatch with | '#' :: t => t | l => l
      "0x" ++ String.mk (h.map Char.toUpper) ++ "@1"
    else "0xFFFFFF@1"

end MediaColor

/-! ## The layer sort

Both composition builders sort the combined sticker/text layer list with
`Array.prototype.sort((a, b) => a.z - b.z)`, which ECMAScript guarantees
to be a stable ascending sort by `z`; it is embedded as a stable
insertion sort. -/

/-- Insert `x` after every already-placed element whose key is ≤ its key
(so ties keep the earlier element first). -/
def insertByZ {α : Type} (z : α → ℚ) (x : α) : List α → List α
  | [] => [x]
  | y :: ys => if z y ≤ z x then y :: insertByZ z x ys else x :: y :: ys

/-- Stable ascending sort by the key `z`. -/
def stableSortByZ {α : Type} (z : α → ℚ) (l : List α) : List α :=
  l.foldl (fun acc x => insertByZ z x acc) []

/-! ## `src/processors/baseProcessor.ts` and the `ImageProcessor.process`
assembly (`src/app.ts`)

Font resolution is an external collaborator
(`assetService.resolveFontPath`), passed in as a function. -/

namespace BaseProcessor

structure Position where
  x : ℚ
  y : ℚ
deriving DecidableEq

structure Size where
  width : ℚ
  height : ℚ
deriving DecidableEq

structure Crop where
  x : ℚ
  y : ℚ
  width : ℚ
  height : ℚ
deriving DecidableEq

structure Content where
  position : Position
  size : Option Size
  rotation : ℚ
  crop : Option Crop
deriving DecidableEq

structure Sticker where
  name : String
  position : Position
  size : Option Size
  scale : ℚ
  rotation : ℚ
  z : ℚ
  opacity : ℚ
deriving DecidableEq

structure TextOverlay where
  text : String
  x : ℚ
  y : ℚ
  width : ℚ
  height : ℚ
  rotation : ℚ
  fontFamily : String
  fontWeight : String
  color : String
  backgroundColor : Option String
  z : ℚ
deriving DecidableEq

structure MediaRequest where
  post : Bool
  backgroundColor : String
  content : Content
  ffmpegFilters : Option String
  stickers : List Sticker
  textOverlays : List TextOverlay
  outputQuality : ℚ
deriving DecidableEq

structure Canvas where
  width : ℤ
  height : ℤ
deriving DecidableEq

/-- `mediaConfig.targetFps`. -/
def targetFps : ℤ := 60

/-- `mediaConfig.textPadding` (default 28). -/
def textPadding : ℤ := 28

/-- `getCanvas(isPost)` from `src/config/index.ts`. -/
def getCanvas (isPost : Bool) : Canvas :=
  if isPost then ⟨1080, 1350⟩ else ⟨1080, 1920⟩

/-- One filter-chain statement together with its declared output pad. -/
structure FilterOut where
  filter : String
  outputTag : String
deriving DecidableEq

/-- Truthiness of `a?.width && a?.height` for an optional size-like pair. -/
def hasWH (s : Option Size) : Bool :=
  match s with
  | some sz => decide (sz.width ≠ 0) && decide (sz.height ≠ 0)
  | none => false

/-- Truthiness of `filters.ffmpeg?.trim()`. -/
def hasCustomFilters (f : Option String) : Bool :=
  match f with
  | some s => decide (MediaColor.jsTrim s.toList ≠ [])
  | none => false

/-- `buildMainContentFilter` (crop → rotation → scale/cover → raw custom
filters), producing pad `main_content` from input `1:v`. -/
def buildMainContentFilter (request : MediaRequest) (canvas : Canvas) :
    FilterOut :=
  let content := request.content
  let steps0 : List String :=
    match content.crop with
    | some c =>
      if c.width ≠ 0 ∧ c.height ≠ 0 then
        ["crop=" ++ intStr (jround c.width) ++ ":" ++ intStr (jround c.height)
          ++ ":" ++ intStr (jround c.x) ++ ":" ++ intStr (jround c.y)]
      else []
    | none => []
  let steps1 := steps0 ++
    (if content.rotation ≠ 0 then
      ["rotate=" ++ jsLit (degToRad content.rotation) ++ ":ow=rotw(iw):oh=roth(ih)"]
    else [])
  let steps2 := steps1 ++
    (if hasWH content.size then
      match content.size with
      | some sz =>
        ["scale=" ++ intStr (jround sz.width) ++ ":" ++ intStr (jround sz.height)
          ++ ":flags=bicubic"]
      | none => []
    else
      ["scale=" ++ intStr canvas.width ++ ":" ++ intStr canvas.height
        ++ ":force_original_aspect_ratio=increase",
        "crop=" ++ intStr canvas.width ++ ":" ++ intStr canvas.height])
  let steps := steps2 ++
    (match request.ffmpegFilters with
    | some s => if hasCustomFilters request.ffmpegFilters then [s] else []
    | none => [])
  ⟨"[1:v]" ++ String.intercalate "," steps ++ "[main_content]", "main_content"⟩

end BaseProcessor

namespace BaseProcessor

/-- `buildCanvasOverlay`: overlay the main content onto the canvas input
`0:v` at the clamped content position. -/
def buildCanvasOverlay (request : MediaRequest) (canvas : Canvas)
    (inputTag : String) : FilterOut :=
  let x := clampFloatQ request.content.position.x 0 (canvas.width : ℚ)
  let y := clampFloatQ request.content.position.y 0 (canvas.height : ℚ)
  ⟨"[0:v][" ++ inputTag ++ "]overlay=" ++ toExpression x ++ ":" ++ toExpression y
    ++ ":format=auto[canvas_with_content]", "canvas_with_content"⟩

/-- `buildStickerFilters`: one transform statement per sticker, reading
input `(offset+i):v` and producing pad `sticker_i`. -/
def buildStickerFilters (stickers : List Sticker) (_canvas : Canvas)
    (stickerInputOffset : ℕ) : List FilterOut :=
  stickers.mapIdx (fun i sticker =>
    let inputIndex := stickerInputOffset + i
    let hasSize := hasWH sticker.size
    let w := match sticker.size with
      | some sz => if hasSize then intStr (jround sz.width) else "iw*" ++ jsLit sticker.scale
      | none => "iw*" ++ jsLit sticker.scale
    let h := match sticker.size with
      | some sz => if hasSize then intStr (jround sz.height) else "ih*" ++ jsLit sticker.scale
      | none => "ih*" ++ jsLit sticker.scale
    let steps := ["format=rgba", "scale=" ++ w ++ ":" ++ h] ++
      (if sticker.rotation ≠ 0 then
        ["rotate=" ++ jsLit (degToRad sticker.rotation)
          ++ ":ow=rotw(iw):oh=roth(ih):c=black@0"]
      else []) ++
      (if sticker.opacity < 1 ∧ 0 ≤ sticker.opacity then
        ["colorchannelmixer=aa=" ++ jsLit sticker.opacity]
      else [])
    let outputTag := "sticker_" ++ toString i
    (⟨"[" ++ toString inputIndex ++ ":v]" ++ String.intercalate "," steps
      ++ "[" ++ outputTag ++ "]", outputTag⟩ : FilterOut))

/-- `calculateFontSize(boxWidth, canvasHeight)`: linear scale against the
400×200 → 24 px baseline, floored, minimum 8. -/
def calculateFontSize (boxWidth : ℤ) (canvasHeight : ℤ) : ℤ :=
  let scaleFactor : ℚ := min (Rat.divInt boxWidth 400) (Rat.divInt canvasHeight 200)
  max 8 (Rat.floor (qMul 24 scaleFactor))

/-- `buildTextFilters`: per overlay a transparent text canvas, a drawtext
statement and, when rotated, a rotation statement.  The returned list is
the flat list of all these statements, in emission order. -/
def buildTextFilters (fontResolver : String → String → String)
    (textOverlays : List TextOverlay) (canvas : Canvas) : List FilterOut :=
  (textOverlays.mapIdx (fun i t =>
    let canvasTag := "text_canvas_" ++ toString i
    let textTag := "text_" ++ toString i
    let _pixelX := clampFloatQ (toPixelsQ t.x (canvas.width : ℚ)) 0 (canvas.width : ℚ)
    let _pixelY := clampFloatQ (toPixelsQ t.y (canvas.height : ℚ)) 0 (canvas.height : ℚ)
    let boxWidth := max 1 (jround (toPixelsQ t.width (canvas.width : ℚ)))
    let boxHeight := max 1 (jround (toPixelsQ t.height (canvas.height : ℚ)))
    let first : FilterOut :=
      ⟨"color=c=black@0:s=" ++ intStr boxWidth ++ "x" ++ intStr boxHeight
        ++ ":r=" ++ intStr targetFps ++ " [" ++ canvasTag ++ "]", canvasTag⟩
    let fontPath := fontResolver t.fontFamily t.fontWeight
    let fontColor := MediaColor.rgbaToFFmpegColor t.color
    let fontSize := calculateFontSize boxWidth canvas.height
    let escapedfontPath := escapePath fontPath
    let escapedText := escapeText t.text
    let drawTextFilter0 :=
      "drawtext=fontfile='" ++ escapedfontPath ++ "'"
      ++ ":text='" ++ escapedText ++ "'"
      ++ ":fontsize=" ++ intStr fontSize
      ++ ":fontcolor=" ++ fontColor
      ++ ":x=(w-text_w)/2"
      ++ ":y=(h-text_h)/2"
    let drawTextFilter := match t.backgroundColor with
      | some bg =>
        if bg ≠ "" then
          drawTextFilter0 ++ ":box=1:boxcolor=" ++ MediaColor.rgbaToFFmpegColor bg
            ++ ":boxborderw=" ++ intStr textPadding
        else drawTextFilter0
      | none => drawTextFilter0
    let outputTag := if t.rotation ≠ 0 then "text_rotated_" ++ toString i else textTag
    let second : FilterOut :=
      ⟨"[" ++ canvasTag ++ "]" ++ drawTextFilter ++ "[" ++ textTag ++ "]", textTag⟩
    if t.rotation ≠ 0 then
      [first, second,
        ⟨"[" ++ textTag ++ "]rotate=" ++ jsLit (degToRad t.rotation)
          ++ ":ow=rotw(iw):oh=roth(ih):c=black@0[" ++ outputTag ++ "]", outputTag⟩]
    else [first, second])).flatten

/-- The compiler-internal layer: a sticker or a text overlay carrying its
`z` key and resolved pad tag. -/
inductive LayerData where
  | stickerD (s : Sticker)
  | textD (t : TextOverlay)
deriving DecidableEq

structure Layer where
  z : ℚ
  tag : String
  data : LayerData
deriving DecidableEq

/-- The combined layer list of `buildLayerOverlays`: all stickers (tagged
with `stickerTags[i]`) followed by all text overlays (tagged with
`textTags[i]`). -/
def makeLayers (request : MediaRequest) (stickerTags textTags : List String) :
    List Layer :=
  request.stickers.mapIdx (fun i s => ⟨s.z, stickerTags.getD i "", .stickerD s⟩) ++
  request.textOverlays.mapIdx (fun i t => ⟨t.z, textTags.getD i "", .textD t⟩)

/-- `buildLayerOverlays`: sort the combined layers by `z` and overlay each
onto the running base, producing pads `layer_0`, `layer_1`, …. -/
def buildLayerOverlays (request : MediaRequest) (canvas : Canvas)
    (baseTag : String) (stickerTags textTags : List String) : List FilterOut :=
  let layers := stableSortByZ (fun l => l.z) (makeLayers request stickerTags textTags)
  (layers.foldl (fun (acc : List FilterOut × String × ℕ) layer =>
    let overlays := acc.1
    let currentBase := acc.2.1
    let i := acc.2.2
    let outputTag := "layer_" ++ toString i
    let xy : ℚ × ℚ := match layer.data with
      | .stickerD s =>
        (clampFloatQ s.position.x 0 (canvas.width : ℚ),
         clampFloatQ s.position.y 0 (canvas.height : ℚ))
      | .textD t =>
        (clampFloatQ (toPixelsQ t.x (canvas.width : ℚ)) 0 (canvas.width : ℚ),
         clampFloatQ (toPixelsQ t.y (canvas.height : ℚ)) 0 (canvas.height : ℚ))
    (overlays ++ [⟨"[" ++ currentBase ++ "][" ++ layer.tag ++ "]overlay="
        ++ toExpression xy.1 ++ ":" ++ toExpression xy.2
        ++ ":format=auto[" ++ outputTag ++ "]", outputTag⟩],
     outputTag, i + 1)) ([], baseTag, 0)).1

/-- The filter-graph assembly of `ImageProcessor.process` (`src/app.ts`):
the produced `-filter_complex` statement list and the pad passed to
`-map`.  Note that the layer step receives `textFilters.map(f => f.outputTag)`
— the output tags of *all* text statements, not one tag per overlay. -/
def imageProcess (fontResolver : String → String → String)
    (request : MediaRequest) : List String × String :=
  let canvas := getCanvas request.post
  let mainContentFilter := buildMainContentFilter request canvas
  let canvasOverlay := buildCanvasOverlay request canvas mainContentFilter.outputTag
  let currentOutputTag := canvasOverlay.outputTag
  let stickerFilters := buildStickerFilters request.stickers canvas 2
  let textFilters := buildTextFilters fontResolver request.textOverlays canvas
  let chains := [mainContentFilter.filter, canvasOverlay.filter]
    ++ stickerFilters.map (fun f => f.filter)
    ++ textFilters.map (fun f => f.filter)
  if stickerFilters.length ≠ 0 ∨ textFilters.length ≠ 0 then
    let layerOverlays := buildLayerOverlays request canvas currentOutputTag
      (stickerFilters.map (fun f => f.outputTag))
      (textFilters.map (fun f => f.outputTag))
    (chains ++ layerOverlays.map (fun f => f.filter),
     match layerOverlays.getLast? with
     | some l => l.outputTag
     | none => currentOutputTag)
  else (chains, currentOutputTag)

end BaseProcessor

/-! ## Dependency-closure check for a filter program

The spec's own testable property: every pad named as an input of a
statement must be a real input stream or the output pad of an earlier
statement, no pad may be consumed twice, and exactly one produced pad —
the mapped one — must remain unconsumed.  In the emitted statements every
bracketed token is either a leading input pad or the single trailing
output pad, so the pads of a statement are recovered from its brackets. -/

/-- Collect the bracketed tokens of a statement, in order. -/
def bracketTokensAux : List Char → Option (List Char) → List (List Char)
  | [], _ => []
  | c :: rest, none =>
    if c = '[' then bracketTokensAux rest (some [])
    else bracketTokensAux rest none
  | c :: rest, some cur =>
    if c = ']' then cur.reverse :: bracketTokensAux rest none
    else bracketTokensAux rest (some (c :: cur))

def bracketTokens (s : String) : List String :=
  (bracketTokensAux s.toList none).map (fun l => ⟨l⟩)

/-- Input pads of a statement: all bracketed tokens but the last. -/
def stmtInputs (s : String) : List String := (bracketTokens s).dropLast

/-- Output pad of a statement: its last bracketed token. -/
def stmtOutput (s : String) : String := ((bracketTokens s).getLast?).getD ""

/-- Fold step: track produced pads, consumed pads, and whether every
input so far was available (already produced or a real input) and
not yet consumed. -/
def padCheckStep (realInputs : List String)
    (st : List String × List String × Bool) (stmt : String) :
    List String × List String × Bool :=
  let produced := st.1
  let consumed := st.2.1
  let ok := st.2.2
  let ins := stmtInputs stmt
  let okIns := ins.all (fun t =>
    (realInputs.contains t || produced.contains t) && !(consumed.contains t))
  (produced ++ [stmtOutput stmt], consumed ++ ins, ok && okIns)

/-- Pads produced by the program but never consumed. -/
def unconsumedPads (realInputs : List String) (stmts : List String) :
    List String :=
  let st := stmts.foldl (padCheckStep realInputs) ([], [], true)
  st.1.filter (fun t => !(st.2.1.contains t))

/-- The full dependency-closure check: all inputs available, no pad
consumed twice, and the only unconsumed produced pad is the mapped one. -/
def padClosure (realInputs : List String) (stmts : List String)
    (mapped : String) : Bool :=
  let st := stmts.foldl (padCheckStep realInputs) ([], [], true)
  st.2.2 && (st.1.filter (fun t => !(st.2.1.contains t)) == [mapped])

/-! ## `src/worker/video.ts`: the text-overlay pipeline -/

namespace WorkerVideo

def TARGET_FPS : ℤ := 60

/-- `TEXT_BOX_PADDING_PX` (env default 28). -/
def TEXT_BOX_PADDING_PX : ℤ := 28

/-- A worker text overlay (the fields the text pipeline reads). -/
structure WText where
  text : String
  x : ℚ
  y : ℚ
  width : ℚ
  rotation : ℚ
  fontFamily : String
  fontWeight : String
  color : String
  backgroundColor : Option String
  z : ℚ
deriving DecidableEq

/-- The worker's font-size computation (inline in `processVideo`):
`Math.max(8, Math.floor(24 * Math.min(rawBoxW/400, CANVAS_H/200)))`. -/
def fontSizeOf (rawBoxW canvasH : ℤ) : ℤ :=
  let scaleFactor : ℚ := min (Rat.divInt rawBoxW 400) (Rat.divInt canvasH 200)
  max 8 (Rat.floor (qMul 24 scaleFactor))

/-- `Math.floor(fontSize * 0.8)`.  For the integer font sizes produced by
`fontSizeOf` the binary64 product `fontSize * 0.8` floors exactly like
the rational `4·fontSize/5` (the fractional part of `4n/5` is never
within an ulp of an integer boundary). -/
def lineSpacingOf (fontSize : ℤ) : ℤ := Rat.floor (qMul (fontSize : ℚ) (Rat.divInt 4 5))

/-- The chains emitted for one text layer in `processVideo` (transparent
box `tc‹i›`, drawtext `tt‹i›`, optional rotation `tr‹i›`, overlay
`base_t_‹i›`), together with the new running base pad. -/
def textLayerChains (fontFile : String) (t : WText) (canvasW canvasH : ℤ)
    (idx : ℕ) (last : String) : List String × String :=
  let pxX := clampFloatQ (toPixelsQ t.x (canvasW : ℚ)) 0 (canvasW : ℚ)
  let pxY := clampFloatQ (toPixelsQ t.y (canvasH : ℚ)) 0 (canvasH : ℚ)
  let pad := TEXT_BOX_PADDING_PX
  let rawBoxW := max 1 (jround (toPixelsQ t.width (canvasW : ℚ)))
  let fontSize := fontSizeOf rawBoxW canvasH
  let lineSpacing := lineSpacingOf fontSize
  let p := prepareText t.text
  let lines : ℤ := p.lines
  let rawBoxH := fontSize * lines + lineSpacing * (lines - 1)
  let boxW := rawBoxW + pad * 2
  let boxH := rawBoxH + pad * 2
  let fontColor := MediaColor.rgbaToFFmpegColor t.color
  let useBox := match t.backgroundColor with
    | some s => decide (s ≠ "")
    | none => false
  let tc := "tc" ++ toString idx
  let tt := "tt" ++ toString idx
  let drawtext :=
    "drawtext=fontfile='" ++ escapePath fontFile ++ "'"
    ++ ":text='" ++ p.textEscaped ++ "'"
    ++ ":fontsize=" ++ intStr fontSize
    ++ ":fontcolor=" ++ fontColor
    ++ ":x=(w-text_w)/2"
    ++ ":y=(h - ((" ++ intStr fontSize ++ " * " ++ intStr lines ++ ") + ("
      ++ intStr lineSpacing ++ " * (" ++ intStr lines ++ " - 1)))) / 2"
    ++ ":line_spacing=" ++ intStr lineSpacing
    ++ (if useBox then
          ":box=1:boxcolor="
          ++ (match t.backgroundColor with
              | some bg => MediaColor.rgbaToFFmpegColor bg
              | none => "")
          ++ ":boxborderw=" ++ intStr pad
        else "")
  let tOut := if t.rotation ≠ 0 then "tr" ++ toString idx else tt
  let out := "base_t_" ++ toString idx
  let chains :=
    ["color=c=black@0:s=" ++ intStr boxW ++ "x" ++ intStr boxH
      ++ ":r=" ++ intStr TARGET_FPS ++ " [" ++ tc ++ "]",
     "[" ++ tc ++ "]" ++ drawtext ++ "[" ++ tt ++ "]"]
    ++ (if t.rotation ≠ 0 then
          ["[" ++ tt ++ "]rotate=" ++ jsLit (degToRad t.rotation)
            ++ ":ow=rotw(iw):oh=roth(ih):c=black@0[" ++ tOut ++ "]"]
        else [])
    ++ ["[" ++ last ++ "][" ++ tOut ++ "]overlay=" ++ toExpression pxX ++ ":"
        ++ toExpression pxY ++ ":format=auto:shortest=1[" ++ out ++ "]"]
  (chains, out)

end WorkerVideo

/-! ## `src/app.ts`: `VideoProcessor.tryVideoEncoding` -/

namespace VideoProcessor

/-- The three encoding profiles, in their fixed order of preference. -/
inductive EncProfile where
  | nvenc
  | x264copy
  | x264aac
deriving DecidableEq

/-- `config.videoEncoder === 'nvenc'`. -/
def useNvencOf (videoEncoder : String) : Bool := videoEncoder == "nvenc"

/-- The profile sequence the selector may try: the hardware profile only
when configured, then software with audio copy, then software with AAC. -/
def profileOrder (useNvenc : Bool) : List EncProfile :=
  if useNvenc then [.nvenc, .x264copy, .x264aac] else [.x264copy, .x264aac]

/-- `tryVideoEncoding`, abstracted over the outcome of each `executeFFmpeg`
invocation (`exec p = true` iff the subprocess for profile `p` succeeds).
Returns the overall success flag and the list of profiles invoked, in
invocation order — a straight-line mirror of the source's try/catch
cascade. -/
def tryVideoEncoding (useNvenc : Bool) (exec : EncProfile → Bool) :
    Bool × List EncProfile :=
  if useNvenc then
    if exec .nvenc then (true, [.nvenc])
    else
      if exec .x264copy then (true, [.nvenc, .x264copy])
      else
        if exec .x264aac then (true, [.nvenc, .x264copy, .x264aac])
        else (false, [.nvenc, .x264copy, .x264aac])
  else
    if exec .x264copy then (true, [.x264copy])
    else
      if exec .x264aac then (true, [.x264copy, .x264aac])
      else (false, [.x264copy, .x264aac])

/-- `VideoProcessor.process` after the encoding step: a false return
raises `'All video encoding attempts failed'`. -/
def processOutcome (success : Bool) : Except String Unit :=
  if success then .ok () else .error "All video encoding attempts failed"

/-- The CRF tiers: quality ≥ 90 → 18, ≥ 80 → 20, else 23. -/
def crfOf (quality : ℚ) : ℤ :=
  if 90 ≤ quality then 18 else if 80 ≤ quality then 20 else 23

/-- The NVENC CQ tiers: quality ≥ 90 → 19, ≥ 80 → 21, else 24. -/
def cqOf (quality : ℚ) : ℤ :=
  if 90 ≤ quality then 19 else if 80 ≤ quality then 21 else 24

end VideoProcessor

/-! ## `src/services/jobService/inMemory/InMemoryJobService.ts`

The job table is modelled as a function from job id to an optional
record; the progress stream of a job is modelled by the list of events
emitted on it plus the number of attached listeners.  JavaScript `async`
function bodies run synchronously up to their first `await`, so the part
of `processJobAsync` before `await processor(jobState)` executes before
`addJob` returns; `addJob` is embedded as exactly that synchronous
prefix. -/

namespace InMemoryJobService

structure ProgressEv where
  phase : String
  message : String
deriving DecidableEq

structure JobRec where
  jobDataType : String
  state : String
  streamEvents : List ProgressEv
  listeners : ℕ
  startTime : ℕ
deriving DecidableEq

def Table : Type := String → Option JobRec

def update (t : Table) (k : String) (v : JobRec) : Table :=
  fun id => if id = k then some v else t id

def erase (t : Table) (k : String) : Table :=
  fun id => if id = k then none else t id

/-- The keys of `jobProcessorMap` (the registered job-data class names). -/
def jobProcessorNames : List String :=
  ["CompressMediaReqJobData", "CompressImageReqJobData"]

/-- `emitProgress`: appends the event to the stream and overwrites the
job's `state` string with `[phase] message` ("for HTTP polling
compatibility", per the source comment). -/
def emitProgress (js : JobRec) (phase message : String) : JobRec :=
  { js with
    state := "[" ++ phase ++ "] " ++ message,
    streamEvents := js.streamEvents ++ [⟨phase, message⟩] }

/-- The synchronous prefix of `processJobAsync` (everything before
`await processor(jobState)`): look the job up, and either emit the
PROCESSING "Job started" event or, with no registered processor, emit
FAILED and set the state to `"FAILED"`. -/
def processJobAsyncPrefix (t : Table) (jobId : String) : Table :=
  match t jobId with
  | none => t
  | some js =>
    if jobProcessorNames.contains js.jobDataType then
      update t jobId (emitProgress js "PROCESSING" "Job started")
    else
      update t jobId
        { emitProgress js "FAILED" "No processor found for job type" with
          state := "FAILED" }

/-- `addJob`: create the record in state `QUEUED` with a fresh progress
stream, emit the QUEUE event, kick off `processJobAsync` (of which the
synchronous prefix runs before returning), and return the new id. -/
def addJob (t : Table) (uid : String) (jobDataType : String) (now : ℕ) :
    String × Table :=
  let jobState : JobRec := ⟨jobDataType, "QUEUED", [], 0, now⟩
  let t1 := update t uid jobState
  let t2 := update t1 uid (emitProgress jobState "QUEUE" "Job queued for processing")
  let t3 := processJobAsyncPrefix t2 uid
  (uid, t3)

/-- `getJobStatusByIds`: id → state-string pairs, unknown ids omitted. -/
def getJobStatusByIds (t : Table) (ids : List String) :
    List (String × String) :=
  ids.foldl (fun m id =>
    match t id with
    | some js => m ++ [(id, js.state)]
    | none => m) []

/-- `cleanupJobStream`: if the job exists, remove all listeners from its
stream, and delete the record entirely when the job has reached state
`COMPLETED` or `FAILED`. -/
def cleanupJobStream (t : Table) (jobId : String) : Table :=
  match t jobId with
  | none => t
  | some js =>
    if js.state = "COMPLETED" ∨ js.state = "FAILED" then erase t jobId
    else update t jobId { js with listeners := 0 }

/-- Attaching an SSE observer (`progressStream.on(...)` in
`JobController.getJobProgressSSE`). -/
def subscribeStream (t : Table) (jobId : String) : Table :=
  match t jobId with
  | none => t
  | some js => update t jobId { js with listeners := js.listeners + 2 }

end InMemoryJobService

/-! ## Concrete inputs used by the evaluation theorems -/

/-- A fixed font resolver (the asset collaborator), as `resolveFontPath`
would return it. -/
def fontResolverFixed : String → String → String :=
  fun _ _ => "/assets/fonts/Poppins-Medium.ttf"

/-- A scene with one unrotated text overlay and no stickers. -/
def sceneTextOnly : BaseProcessor.MediaRequest :=
  ⟨false, "black", ⟨⟨0, 0⟩, none, 0, none⟩, none, [],
    [⟨"Hi", 100, 100, 400, 200, 0, "Poppins", "Medium",
      "rgba(255,255,255,1)", none, 1⟩], 90⟩

/-- The same scene with the text overlay rotated by 90 degrees. -/
def sceneTextRotated : BaseProcessor.MediaRequest :=
  ⟨false, "black", ⟨⟨0, 0⟩, none, 0, none⟩, none, [],
    [⟨"Hi", 100, 100, 400, 200, 90, "Poppins", "Medium",
      "rgba(255,255,255,1)", none, 1⟩], 90⟩

/-- A scene with one sticker and no text overlays. -/
def sceneStickerOnly : BaseProcessor.MediaRequest :=
  ⟨false, "black", ⟨⟨0, 0⟩, none, 0, none⟩, none,
    [⟨"star", ⟨50, 60⟩, none, 1, 0, 2, 1⟩], [], 90⟩

/-- The worker-side twin of the overlay in `sceneTextOnly`. -/
def wtextSample : WorkerVideo.WText :=
  ⟨"Hi", 100, 100, 400, 0, "Poppins", "Medium",
    "rgba(255,255,255,1)", none, 1⟩

/-- The consumed-pad list of a program under the dependency check. -/
def consumedPads (realInputs : List String) (stmts : List String) :
    List String :=
  (stmts.foldl (padCheckStep realInputs) ([], [], true)).2.1

/-- An uppercase hexadecimal digit. -/
def isUpperHex (c : Char) : Bool :=
  c.isDigit || ('A' ≤ c && c ≤ 'F')

/-! # Theorems

First the bridge lemmas relating the reducible rational helpers to the
standard operations, then general-purpose lemmas, then one theorem per
claim. -/

theorem num_eq_mul_den (a : ℚ) : (a.num : ℚ) = a * a.den := by
  have ha : (a.den : ℚ) ≠ 0 := Nat.cast_ne_zero.2 a.den_nz
  rw [← div_eq_iff ha, Rat.num_div_den]

theorem qAdd_eq (a b : ℚ) : qAdd a b = a + b := by
  have ha : (a.den : ℚ) ≠ 0 := Nat.cast_ne_zero.2 a.den_nz
  have hb : (b.den : ℚ) ≠ 0 := Nat.cast_ne_zero.2 b.den_nz
  unfold qAdd
  rw [Rat.divInt_eq_div]
  push_cast
  field_simp
  linear_combination (b.den : ℚ) * num_eq_mul_den a + (a.den : ℚ) * num_eq_mul_den b

theorem qSub_eq (a b : ℚ) : qSub a b = a - b := by
  have ha : (a.den : ℚ) ≠ 0 := Nat.cast_ne_zero.2 a.den_nz
  have hb : (b.den : ℚ) ≠ 0 := Nat.cast_ne_zero.2 b.den_nz
  unfold qSub
  rw [Rat.divInt_eq_div]
  push_cast
  field_simp
  linear_combination (b.den : ℚ) * num_eq_mul_den a - (a.den : ℚ) * num_eq_mul_den b

theorem qMul_eq (a b : ℚ) : qMul a b = a * b := by
  have ha : (a.den : ℚ) ≠ 0 := Nat.cast_ne_zero.2 a.den_nz
  have hb : (b.den : ℚ) ≠ 0 := Nat.cast_ne_zero.2 b.den_nz
  unfold qMul
  rw [Rat.divInt_eq_div]
  push_cast
  field_simp
  linear_combination (b.num : ℚ) * num_eq_mul_den a + (a * (a.den : ℚ)) * num_eq_mul_den b

theorem qDiv_eq (a b : ℚ) : qDiv a b = a / b := by
  have ha : (a.den : ℚ) ≠ 0 := Nat.cast_ne_zero.2 a.den_nz
  have hb : (b.den : ℚ) ≠ 0 := Nat.cast_ne_zero.2 b.den_nz
  rcases eq_or_ne b 0 with hb0 | hb0
  · subst hb0
    unfold qDiv
    simp
  · have hbq : (b.num : ℚ) ≠ 0 := by
      simpa using Rat.num_ne_zero.2 hb0
    unfold qDiv
    rw [Rat.divInt_eq_div]
    push_cast
    field_simp
    linear_combination ((b.den : ℚ) * b) * num_eq_mul_den a - (a * (a.den : ℚ)) * num_eq_mul_den b

theorem ratFloor_eq (q : ℚ) : Rat.floor q = ⌊q⌋ := by
  rw [Rat.floor_def', Rat.floor_def]

theorem jround_eq (q : ℚ) : jround q = ⌊q + 1/2⌋ := by
  unfold jround
  rw [ratFloor_eq, qAdd_eq, Rat.divInt_eq_div]
  norm_num

/-- Claim C4 (code_bug): the spec requires a single quote to escape to
the four characters `'\''` and a `<br>` token to become one literal
newline, identically in both builders.  The worker's `prepareText` does
exactly that, but `BaseProcessor.escapeText` produces the five-character
`'\\''` (an extra backslash) and the two characters `\` `n`; on ordinary
text containing backslash, percent and colon the two builders agree. -/
theorem escapeText_quote_linebreak_divergence :
    BaseProcessor.escapeText "'" = "'\\\\''" ∧
    (WorkerVideo.prepareText "'").textEscaped = "'\\''" ∧
    BaseProcessor.escapeText "<br>" = "\\n" ∧
    (WorkerVideo.prepareText "<br>").textEscaped = "\n" ∧
    BaseProcessor.escapeText "'" ≠ (WorkerVideo.prepareText "'").textEscaped ∧
    BaseProcessor.escapeText "<br>" ≠ (WorkerVideo.prepareText "<br>").textEscaped ∧
    BaseProcessor.escapeText "a:b%c\\d" = (WorkerVideo.prepareText "a:b%c\\d").textEscaped ∧
    BaseProcessor.escapeText "a:b%c\\d" = "a\\:b\\%c\\\\d" := by
  decide

/-- Claim C1 (code_bug): a scene with a text overlay makes the image
builder's program fail the dependency-closure check: the layer step
consumes the transparent text-canvas pad a second time and leaves the
drawn-text pad (`text_0`, or `text_rotated_0` when rotated) unconsumed,
so two produced pads are never consumed; a sticker-only scene passes the
check with the mapped pad as the single terminal pad. -/
theorem imageProcess_text_scene_pad_closure_fails :
    padClosure ["0:v", "1:v"]
      (BaseProcessor.imageProcess fontResolverFixed sceneTextOnly).1
      (BaseProcessor.imageProcess fontResolverFixed sceneTextOnly).2 = false ∧
    unconsumedPads ["0:v", "1:v"]
      (BaseProcessor.imageProcess fontResolverFixed sceneTextOnly).1 =
      ["text_0", "layer_0"] ∧
    (consumedPads ["0:v", "1:v"]
      (BaseProcessor.imageProcess fontResolverFixed sceneTextOnly).1).count
      "text_canvas_0" = 2 ∧
    padClosure ["0:v", "1:v"]
      (BaseProcessor.imageProcess fontResolverFixed sceneTextRotated).1
      (BaseProcessor.imageProcess fontResolverFixed sceneTextRotated).2 = false ∧
    unconsumedPads ["0:v", "1:v"]
      (BaseProcessor.imageProcess fontResolverFixed sceneTextRotated).1 =
      ["text_rotated_0", "layer_0"] ∧
    padClosure ["0:v", "1:v", "2:v"]
      (BaseProcessor.imageProcess fontResolverFixed sceneStickerOnly).1
      (BaseProcessor.imageProcess fontResolverFixed sceneStickerOnly).2 = true := by
  decide

/-- Claim C5 (counterexample): immediately after `addJob` returns, the
status lookup for the new id yields `"[PROCESSING] Job started"`, not the
state label `QUEUED` — `emitProgress` overwrites the state string and the
synchronous prefix of the scheduled task runs before `addJob` returns. -/
theorem addJob_status_not_queued_at_return :
    InMemoryJobService.getJobStatusByIds
      (InMemoryJobService.addJob (fun _ => none) "job-1"
        "CompressMediaReqJobData" 0).2 ["job-1"] =
      [("job-1", "[PROCESSING] Job started")] ∧
    ("[PROCESSING] Job started" : String) ≠ "QUEUED" := by
  decide

/-- Claim C5 (amended): `addJob` allocates the job id, creates a fresh
progress stream (no listeners, no events), emits the QUEUE-phase event,
schedules execution without blocking on completion, and returns with the
job recorded — but because `emitProgress` overwrites the state string and
the synchronous prefix of `processJobAsync` runs before `addJob` returns,
a status lookup at that moment yields `"[PROCESSING] Job started"` (for a
registered job-data type), not `QUEUED`. -/
theorem addJob_returns_processing_state (t : InMemoryJobService.Table)
    (uid jobDataType : String) (now : ℕ)
    (hreg : InMemoryJobService.jobProcessorNames.contains jobDataType = true) :
    (InMemoryJobService.addJob t uid jobDataType now).1 = uid ∧
    (InMemoryJobService.addJob t uid jobDataType now).2 uid =
      some ⟨jobDataType, "[PROCESSING] Job started",
        [⟨"QUEUE", "Job queued for processing"⟩,
         ⟨"PROCESSING", "Job started"⟩], 0, now⟩ ∧
    (∀ id, id ≠ uid → (InMemoryJobService.addJob t uid jobDataType now).2 id = t id) ∧
    InMemoryJobService.getJobStatusByIds
      (InMemoryJobService.addJob t uid jobDataType now).2 [uid] =
      [(uid, "[PROCESSING] Job started")] := by
  have hmem : jobDataType ∈ InMemoryJobService.jobProcessorNames := by
    simpa using hreg
  refine ⟨rfl, ?_, ?_, ?_⟩
  · simp [InMemoryJobService.addJob, InMemoryJobService.update,
      InMemoryJobService.processJobAsyncPrefix, InMemoryJobService.emitProgress, hmem]
  · intro id hid
    simp [InMemoryJobService.addJob, InMemoryJobService.update,
      InMemoryJobService.processJobAsyncPrefix, InMemoryJobService.emitProgress, hmem, hid]
  · simp [InMemoryJobService.getJobStatusByIds, InMemoryJobService.addJob,
      InMemoryJobService.update, InMemoryJobService.processJobAsyncPrefix,
      InMemoryJobService.emitProgress, hmem]

/-- Witness for `addJob_returns_processing_state` at a concrete table,
id, job-data type and time. -/
theorem addJob_returns_processing_state_witness :
    InMemoryJobService.jobProcessorNames.contains "CompressImageReqJobData" = true ∧
    ((InMemoryJobService.addJob (fun _ => none) "job-7"
        "CompressImageReqJobData" 42).1 = "job-7" ∧
     (InMemoryJobService.addJob (fun _ => none) "job-7"
        "CompressImageReqJobData" 42).2 "job-7" =
        some ⟨"CompressImageReqJobData", "[PROCESSING] Job started",
          [⟨"QUEUE", "Job queued for processing"⟩,
           ⟨"PROCESSING", "Job started"⟩], 0, 42⟩ ∧
     (∀ id, id ≠ "job-7" →
        (InMemoryJobService.addJob (fun _ => none) "job-7"
          "CompressImageReqJobData" 42).2 id = (fun _ => none : InMemoryJobService.Table) id) ∧
     InMemoryJobService.getJobStatusByIds
        (InMemoryJobService.addJob (fun _ => none) "job-7"
          "CompressImageReqJobData" 42).2 ["job-7"] =
        [("job-7", "[PROCESSING] Job started")]) :=
  ⟨by decide,
   addJob_returns_processing_state (fun _ => none) "job-7"
     "CompressImageReqJobData" 42 (by decide)⟩

/-- Claim C2 (confirmed): for every encoder configuration and every
outcome of the individual invocations, the selector invokes exactly the
profiles of the fixed order up to and including the first success (all
its earlier invocations failed, so it never retries and never continues
past a success); it succeeds iff some profile of the order succeeds; and
the operation fails with `'All video encoding attempts failed'` exactly
when every profile of the order fails. -/
theorem tryVideoEncoding_profile_fallback (videoEncoder : String)
    (exec : VideoProcessor.EncProfile → Bool) :
    (VideoProcessor.tryVideoEncoding (VideoProcessor.useNvencOf videoEncoder) exec).2 =
      (VideoProcessor.profileOrder (VideoProcessor.useNvencOf videoEncoder)).takeWhile
        (fun p => !exec p) ++
      ((VideoProcessor.profileOrder (VideoProcessor.useNvencOf videoEncoder)).dropWhile
        (fun p => !exec p)).take 1 ∧
    (VideoProcessor.tryVideoEncoding (VideoProcessor.useNvencOf videoEncoder) exec).1 =
      (VideoProcessor.profileOrder (VideoProcessor.useNvencOf videoEncoder)).any exec ∧
    (VideoProcessor.tryVideoEncoding (VideoProcessor.useNvencOf videoEncoder) exec).2.Nodup ∧
    (VideoProcessor.processOutcome
        (VideoProcessor.tryVideoEncoding (VideoProcessor.useNvencOf videoEncoder) exec).1 =
      Except.error "All video encoding attempts failed" ↔
      ∀ p ∈ VideoProcessor.profileOrder (VideoProcessor.useNvencOf videoEncoder),
        exec p = false) := by
  cases hn : VideoProcessor.useNvencOf videoEncoder <;>
    cases h1 : exec VideoProcessor.EncProfile.nvenc <;>
    cases h2 : exec VideoProcessor.EncProfile.x264copy <;>
    cases h3 : exec VideoProcessor.EncProfile.x264aac <;>
    simp [VideoProcessor.tryVideoEncoding, VideoProcessor.profileOrder,
      VideoProcessor.processOutcome, h1, h2, h3]

/-- Witness for `tryVideoEncoding_profile_fallback`: the spec's fallback
test — with the hardware profile configured, profiles 1 and 2 fail and
profile 3 succeeds; the trace is the whole order and the run succeeds. -/
theorem tryVideoEncoding_profile_fallback_witness :
    ((VideoProcessor.tryVideoEncoding
        (VideoProcessor.useNvencOf "nvenc")
        (fun p => p == VideoProcessor.EncProfile.x264aac)).2 =
      (VideoProcessor.profileOrder (VideoProcessor.useNvencOf "nvenc")).takeWhile
        (fun p => !(p == VideoProcessor.EncProfile.x264aac)) ++
      ((VideoProcessor.profileOrder (VideoProcessor.useNvencOf "nvenc")).dropWhile
        (fun p => !(p == VideoProcessor.EncProfile.x264aac))).take 1 ∧
     (VideoProcessor.tryVideoEncoding (VideoProcessor.useNvencOf "nvenc")
        (fun p => p == VideoProcessor.EncProfile.x264aac)).1 =
      (VideoProcessor.profileOrder (VideoProcessor.useNvencOf "nvenc")).any
        (fun p => p == VideoProcessor.EncProfile.x264aac) ∧
     (VideoProcessor.tryVideoEncoding (VideoProcessor.useNvencOf "nvenc")
        (fun p => p == VideoProcessor.EncProfile.x264aac)).2.Nodup ∧
     (VideoProcessor.processOutcome
        (VideoProcessor.tryVideoEncoding (VideoProcessor.useNvencOf "nvenc")
          (fun p => p == VideoProcessor.EncProfile.x264aac)).1 =
      Except.error "All video encoding attempts failed" ↔
      ∀ p ∈ VideoProcessor.profileOrder (VideoProcessor.useNvencOf "nvenc"),
        (p == VideoProcessor.EncProfile.x264aac) = false)) ∧
    (VideoProcessor.tryVideoEncoding (VideoProcessor.useNvencOf "nvenc")
      (fun p => p == VideoProcessor.EncProfile.x264aac)).2 =
      [VideoProcessor.EncProfile.nvenc, VideoProcessor.EncProfile.x264copy,
       VideoProcessor.EncProfile.x264aac] ∧
    (VideoProcessor.tryVideoEncoding (VideoProcessor.useNvencOf "nvenc")
      (fun p => p == VideoProcessor.EncProfile.x264aac)).1 = true :=
  ⟨tryVideoEncoding_profile_fallback "nvenc"
      (fun p => p == VideoProcessor.EncProfile.x264aac),
   by decide, by decide⟩

/-- Claim C7 (counterexample): `clamp` and `clampInt` propagate NaN — on
NaN input they return NaN, which lies in no interval `[min, max]`; only
the float clamp maps NaN to `min`. -/
theorem clamp_nan_returns_nan :
    Geometry.clamp JSNum.nan (fin 0) (fin 10) = JSNum.nan ∧
    Geometry.clampInt JSNum.nan (fin 0) (fin 10) = JSNum.nan ∧
    (∀ q : ℚ, Geometry.clamp JSNum.nan (fin 0) (fin 10) = fin q → False) ∧
    Geometry.clampFloat JSNum.nan (fin 0) (fin 10) = fin 0 := by
  refine ⟨rfl, rfl, ?_, rfl⟩
  intro q h
  rw [show Geometry.clamp JSNum.nan (fin 0) (fin 10) = JSNum.nan from rfl] at h
  exact JSNum.noConfusion h

/-- Claim C7 (amended): for `min ≤ max`, all three clamps are total;
`clampFloat` lands in `[min, max]` for every input including NaN and the
infinities (NaN maps to `min`), while `clamp` and `clampInt` land in
`[min, max]` for every non-NaN input (including infinities) but return
NaN on NaN input. -/
theorem clamp_family_range_behavior (mn mx : ℚ) (hle : mn ≤ mx) (v : JSNum) :
    (∃ r : ℚ, Geometry.clampFloat v (fin mn) (fin mx) = fin r ∧ mn ≤ r ∧ r ≤ mx) ∧
    Geometry.clampFloat JSNum.nan (fin mn) (fin mx) = fin mn ∧
    (v.isNaN = false →
      (∃ r : ℚ, Geometry.clamp v (fin mn) (fin mx) = fin r ∧ mn ≤ r ∧ r ≤ mx) ∧
      (∃ r : ℚ, Geometry.clampInt v (fin mn) (fin mx) = fin r ∧ mn ≤ r ∧ r ≤ mx)) ∧
    Geometry.clamp JSNum.nan (fin mn) (fin mx) = JSNum.nan ∧
    Geometry.clampInt JSNum.nan (fin mn) (fin mx) = JSNum.nan := by
  refine ⟨?_, rfl, ?_, rfl, rfl⟩
  · cases v with
    | nan => exact ⟨mn, rfl, le_refl mn, hle⟩
    | posInf => exact ⟨mx, rfl, hle, le_refl mx⟩
    | negInf =>
      refine ⟨mn, ?_, le_refl mn, hle⟩
      show fin (min mx mn) = fin mn
      rw [min_eq_right hle]
    | fin q =>
      exact ⟨min mx (max mn q), rfl, le_min hle (le_max_left _ _), min_le_left _ _⟩
  · intro hv
    cases v with
    | nan => cases hv
    | posInf =>
      refine ⟨⟨mx, rfl, hle, le_refl mx⟩, mx, ?_, hle, le_refl mx⟩
      show fin (max mn mx) = fin mx
      rw [max_eq_right hle]
    | negInf =>
      refine ⟨⟨mn, ?_, le_refl mn, hle⟩, mn, rfl, le_refl mn, hle⟩
      show fin (min mx mn) = fin mn
      rw [min_eq_right hle]
    | fin q =>
      refine ⟨⟨min mx (max mn q), rfl, le_min hle (le_max_left _ _), min_le_left _ _⟩,
        max mn (min mx (jround q)), rfl, le_max_left _ _,
        max_le hle (min_le_left _ _)⟩

/-- Witness for `clamp_family_range_behavior` at `min = 0`, `max = 10`,
input `+∞`. -/
theorem clamp_family_range_behavior_witness :
    (0 : ℚ) ≤ 10 ∧
    ((∃ r : ℚ, Geometry.clampFloat JSNum.posInf (fin 0) (fin 10) = fin r ∧
        0 ≤ r ∧ r ≤ 10) ∧
     Geometry.clampFloat JSNum.nan (fin 0) (fin 10) = fin 0 ∧
     (JSNum.isNaN JSNum.posInf = false →
       (∃ r : ℚ, Geometry.clamp JSNum.posInf (fin 0) (fin 10) = fin r ∧
          0 ≤ r ∧ r ≤ 10) ∧
       (∃ r : ℚ, Geometry.clampInt JSNum.posInf (fin 0) (fin 10) = fin r ∧
          0 ≤ r ∧ r ≤ 10)) ∧
     Geometry.clamp JSNum.nan (fin 0) (fin 10) = JSNum.nan ∧
     Geometry.clampInt JSNum.nan (fin 0) (fin 10) = JSNum.nan) :=
  ⟨by norm_num, clamp_family_range_behavior 0 10 (by norm_num) JSNum.posInf⟩

theorem clampInt_fin (v : ℚ) (a b : ℤ) :
    Geometry.clampInt (fin v) (fin (a : ℚ)) (fin (b : ℚ)) =
      fin ((max a (min b (jround v)) : ℤ) : ℚ) := by
  show fin (max (a : ℚ) (min (b : ℚ) ((jround v : ℤ) : ℚ))) = _
  norm_cast

/-- Claim C9 (confirmed): for finite inputs and an integer canvas of
width ≥ 1 and height ≥ 1, both `clampBoxToCanvas` variants return the
same all-integer box lying inside the canvas: `1 ≤ W ≤ canvasWidth`,
`1 ≤ H ≤ canvasHeight`, `0 ≤ X ≤ canvasWidth − W` and
`0 ≤ Y ≤ canvasHeight − H`. -/
theorem clampBoxToCanvas_integer_box_within_canvas
    (x y w h : ℚ) (cw ch : ℤ) (hcw : 1 ≤ cw) (hch : 1 ≤ ch) :
    ∃ X Y W H : ℤ,
      Geometry.clampBoxToCanvas (fin x) (fin y) (fin w) (fin h)
        ⟨fin (cw : ℚ), fin (ch : ℚ)⟩ =
        ⟨fin (X : ℚ), fin (Y : ℚ), fin (W : ℚ), fin (H : ℚ)⟩ ∧
      WorkerGeometry.clampBoxToCanvas (fin x) (fin y) (fin w) (fin h)
        (fin (cw : ℚ)) (fin (ch : ℚ)) =
        ⟨fin (X : ℚ), fin (Y : ℚ), fin (W : ℚ), fin (H : ℚ)⟩ ∧
      1 ≤ W ∧ W ≤ cw ∧ 1 ≤ H ∧ H ≤ ch ∧
      0 ≤ X ∧ X ≤ cw - W ∧ 0 ≤ Y ∧ Y ≤ ch - H := by
  have hWb : 1 ≤ max 1 (min cw (jround w)) ∧ max 1 (min cw (jround w)) ≤ cw :=
    ⟨le_max_left _ _, max_le hcw (min_le_left _ _)⟩
  have hHb : 1 ≤ max 1 (min ch (jround h)) ∧ max 1 (min ch (jround h)) ≤ ch :=
    ⟨le_max_left _ _, max_le hch (min_le_left _ _)⟩
  refine ⟨max 0 (min (cw - max 1 (min cw (jround w))) (jround x)),
    max 0 (min (ch - max 1 (min ch (jround h))) (jround y)),
    max 1 (min cw (jround w)), max 1 (min ch (jround h)), ?_, ?_,
    hWb.1, hWb.2, hHb.1, hHb.2,
    le_max_left _ _, max_le (by omega) (min_le_left _ _),
    le_max_left _ _, max_le (by omega) (min_le_left _ _)⟩
  · show Geometry.Box.mk
      (Geometry.clampInt (fin x) (fin 0)
        (jsSub (fin (cw : ℚ)) (Geometry.clampInt (fin w) (fin 1) (fin (cw : ℚ)))))
      (Geometry.clampInt (fin y) (fin 0)
        (jsSub (fin (ch : ℚ)) (Geometry.clampInt (fin h) (fin 1) (fin (ch : ℚ)))))
      (Geometry.clampInt (fin w) (fin 1) (fin (cw : ℚ)))
      (Geometry.clampInt (fin h) (fin 1) (fin (ch : ℚ))) = _
    rw [show (fin (1 : ℚ)) = fin (((1 : ℤ) : ℚ)) by norm_num,
      show (fin (0 : ℚ)) = fin (((0 : ℤ) : ℚ)) by norm_num,
      clampInt_fin w 1 cw, clampInt_fin h 1 ch]
    show Geometry.Box.mk
      (Geometry.clampInt (fin x) (fin ((0 : ℤ) : ℚ))
        (fin (qSub (cw : ℚ) ((max 1 (min cw (jround w)) : ℤ) : ℚ))))
      (Geometry.clampInt (fin y) (fin ((0 : ℤ) : ℚ))
        (fin (qSub (ch : ℚ) ((max 1 (min ch (jround h)) : ℤ) : ℚ)))) _ _ = _
    rw [qSub_eq, qSub_eq,
      show ((cw : ℚ) - ((max 1 (min cw (jround w)) : ℤ) : ℚ)) =
        (((cw - max 1 (min cw (jround w)) : ℤ)) : ℚ) by push_cast; ring,
      show ((ch : ℚ) - ((max 1 (min ch (jround h)) : ℤ) : ℚ)) =
        (((ch - max 1 (min ch (jround h)) : ℤ)) : ℚ) by push_cast; ring,
      clampInt_fin x 0 _, clampInt_fin y 0 _]
  · show Geometry.Box.mk
      (WorkerGeometry.clampInt (fin x) (fin 0)
        (jsSub (fin (cw : ℚ)) (WorkerGeometry.clampInt (fin w) (fin 1) (fin (cw : ℚ)))))
      (WorkerGeometry.clampInt (fin y) (fin 0)
        (jsSub (fin (ch : ℚ)) (WorkerGeometry.clampInt (fin h) (fin 1) (fin (ch : ℚ)))))
      (WorkerGeometry.clampInt (fin w) (fin 1) (fin (cw : ℚ)))
      (WorkerGeometry.clampInt (fin h) (fin 1) (fin (ch : ℚ))) = _
    rw [show (WorkerGeometry.clampInt : JSNum → JSNum → JSNum → JSNum) =
        Geometry.clampInt from rfl]
    rw [show (fin (1 : ℚ)) = fin (((1 : ℤ) : ℚ)) by norm_num,
      show (fin (0 : ℚ)) = fin (((0 : ℤ) : ℚ)) by norm_num,
      clampInt_fin w 1 cw, clampInt_fin h 1 ch]
    show Geometry.Box.mk
      (Geometry.clampInt (fin x) (fin ((0 : ℤ) : ℚ))
        (fin (qSub (cw : ℚ) ((max 1 (min cw (jround w)) : ℤ) : ℚ))))
      (Geometry.clampInt (fin y) (fin ((0 : ℤ) : ℚ))
        (fin (qSub (ch : ℚ) ((max 1 (min ch (jround h)) : ℤ) : ℚ)))) _ _ = _
    rw [qSub_eq, qSub_eq,
      show ((cw : ℚ) - ((max 1 (min cw (jround w)) : ℤ) : ℚ)) =
        (((cw - max 1 (min cw (jround w)) : ℤ)) : ℚ) by push_cast; ring,
      show ((ch : ℚ) - ((max 1 (min ch (jround h)) : ℤ) : ℚ)) =
        (((ch - max 1 (min ch (jround h)) : ℤ)) : ℚ) by push_cast; ring,
      clampInt_fin x 0 _, clampInt_fin y 0 _]

/-- Witness for `clampBoxToCanvas_integer_box_within_canvas` on the
1080×1920 canvas with an oversized, negatively positioned box. -/
theorem clampBoxToCanvas_integer_box_witness :
    (1 : ℤ) ≤ 1080 ∧ (1 : ℤ) ≤ 1920 ∧
    (∃ X Y W H : ℤ,
      Geometry.clampBoxToCanvas (fin (-50)) (fin 5000) (fin 3000) (fin (1/2))
        ⟨fin ((1080 : ℤ) : ℚ), fin ((1920 : ℤ) : ℚ)⟩ =
        ⟨fin (X : ℚ), fin (Y : ℚ), fin (W : ℚ), fin (H : ℚ)⟩ ∧
      WorkerGeometry.clampBoxToCanvas (fin (-50)) (fin 5000) (fin 3000) (fin (1/2))
        (fin ((1080 : ℤ) : ℚ)) (fin ((1920 : ℤ) : ℚ)) =
        ⟨fin (X : ℚ), fin (Y : ℚ), fin (W : ℚ), fin (H : ℚ)⟩ ∧
      1 ≤ W ∧ W ≤ 1080 ∧ 1 ≤ H ∧ H ≤ 1920 ∧
      0 ≤ X ∧ X ≤ 1080 - W ∧ 0 ≤ Y ∧ Y ≤ 1920 - H) :=
  ⟨by norm_num, by norm_num,
   clampBoxToCanvas_integer_box_within_canvas (-50) 5000 3000 (1/2) 1080 1920
     (by norm_num) (by norm_num)⟩

theorem cleanup_lookup_none (s : InMemoryJobService.Table) (jobId : String)
    (h : s jobId = none) :
    InMemoryJobService.cleanupJobStream s jobId = s := by
  simp [InMemoryJobService.cleanupJobStream, h]

theorem update_update_self (s : InMemoryJobService.Table) (k : String)
    (v : InMemoryJobService.JobRec) :
    InMemoryJobService.update (InMemoryJobService.update s k v) k v =
      InMemoryJobService.update s k v := by
  funext id
  by_cases h : id = k <;> simp [InMemoryJobService.update, h]

/-- Claim C8 (confirmed): `cleanupJobStream` is idempotent on the job
table; while the job is non-terminal a detach clears the listeners but
never removes the record; and once the job is terminal (`COMPLETED` or
`FAILED`), after any positive number of detaches — in particular after
the last one — the record is gone. -/
theorem cleanupJobStream_idempotent_lifecycle
    (t : InMemoryJobService.Table) (jobId : String) :
    InMemoryJobService.cleanupJobStream
      (InMemoryJobService.cleanupJobStream t jobId) jobId =
      InMemoryJobService.cleanupJobStream t jobId ∧
    (∀ js, t jobId = some js → js.state ≠ "COMPLETED" → js.state ≠ "FAILED" →
      (InMemoryJobService.cleanupJobStream t jobId) jobId =
        some { js with listeners := 0 }) ∧
    (∀ js, t jobId = some js → (js.state = "COMPLETED" ∨ js.state = "FAILED") →
      ∀ n : ℕ,
        ((fun s => InMemoryJobService.cleanupJobStream s jobId)^[n + 1] t) jobId =
          none) := by
  refine ⟨?_, ?_, ?_⟩
  · rcases h : t jobId with _ | js
    · simp [InMemoryJobService.cleanupJobStream, h]
    · by_cases hterm : js.state = "COMPLETED" ∨ js.state = "FAILED"
      · have h1 : InMemoryJobService.cleanupJobStream t jobId =
            InMemoryJobService.erase t jobId := by
          simp [InMemoryJobService.cleanupJobStream, h, hterm]
        have h2 : (InMemoryJobService.erase t jobId) jobId = none := by
          simp [InMemoryJobService.erase]
        rw [h1]
        simp [InMemoryJobService.cleanupJobStream, h2]
      · have h1 : InMemoryJobService.cleanupJobStream t jobId =
            InMemoryJobService.update t jobId { js with listeners := 0 } := by
          simp [InMemoryJobService.cleanupJobStream, h, hterm]
        have h2 : (InMemoryJobService.update t jobId
            { js with listeners := 0 }) jobId = some { js with listeners := 0 } := by
          simp [InMemoryJobService.update]
        rw [h1]
        simp [InMemoryJobService.cleanupJobStream, h2, hterm, update_update_self]
  · intro js h hc hf
    have hterm : ¬(js.state = "COMPLETED" ∨ js.state = "FAILED") := by
      rintro (h' | h') <;> [exact hc h'; exact hf h']
    simp [InMemoryJobService.cleanupJobStream, h, hterm, InMemoryJobService.update]
  · intro js h hterm n
    induction n with
    | zero =>
      have h1 : InMemoryJobService.cleanupJobStream t jobId =
          InMemoryJobService.erase t jobId := by
        simp [InMemoryJobService.cleanupJobStream, h, hterm]
      simp [Function.iterate_one, h1, InMemoryJobService.erase]
    | succ n ih =>
      rw [Function.iterate_succ_apply']
      show InMemoryJobService.cleanupJobStream
        ((fun s => InMemoryJobService.cleanupJobStream s jobId)^[n + 1] t) jobId jobId =
        none
      rw [cleanup_lookup_none _ _ ih]
      exact ih

/-- Witness for `cleanupJobStream_idempotent_lifecycle` at a concrete
one-job table in terminal state: a single detach after `COMPLETED`
removes the record. -/
theorem cleanupJobStream_idempotent_lifecycle_witness :
    ((fun id => if id = "job-a" then
        some (⟨"CompressMediaReqJobData", "COMPLETED", [], 2, 0⟩ :
          InMemoryJobService.JobRec)
      else none) : InMemoryJobService.Table) "job-a" =
      some ⟨"CompressMediaReqJobData", "COMPLETED", [], 2, 0⟩ ∧
    (("COMPLETED" : String) = "COMPLETED" ∨ ("COMPLETED" : String) = "FAILED") ∧
    ((fun s => InMemoryJobService.cleanupJobStream s "job-a")^[0 + 1]
      (fun id => if id = "job-a" then
        some (⟨"CompressMediaReqJobData", "COMPLETED", [], 2, 0⟩ :
          InMemoryJobService.JobRec)
      else none)) "job-a" = none :=
  ⟨rfl, Or.inl rfl,
   (cleanupJobStream_idempotent_lifecycle
      (fun id => if id = "job-a" then
        some (⟨"CompressMediaReqJobData", "COMPLETED", [], 2, 0⟩ :
          InMemoryJobService.JobRec)
      else none) "job-a").2.2
      ⟨"CompressMediaReqJobData", "COMPLETED", [], 2, 0⟩ rfl (Or.inl rfl) 0⟩

theorem insertByZ_perm {α : Type} (z : α → ℚ) (x : α) (l : List α) :
    List.Perm (insertByZ z x l) (x :: l) := by
  induction l with
  | nil => exact List.Perm.refl _
  | cons y ys ih =>
    by_cases h : z y ≤ z x
    · simp only [insertByZ, if_pos h]
      exact List.Perm.trans (List.Perm.cons y ih) (List.Perm.swap x y ys)
    · simp only [insertByZ, if_neg h]
      exact List.Perm.refl _

theorem insertByZ_sorted {α : Type} (z : α → ℚ) (x : α) (l : List α)
    (h : l.Pairwise (fun a b => z a ≤ z b)) :
    (insertByZ z x l).Pairwise (fun a b => z a ≤ z b) := by
  induction l with
  | nil => simp [insertByZ]
  | cons y ys ih =>
    rcases List.pairwise_cons.1 h with ⟨hy, hys⟩
    by_cases hle : z y ≤ z x
    · simp only [insertByZ, if_pos hle]
      refine List.pairwise_cons.2 ⟨?_, ih hys⟩
      intro b hb
      rcases List.mem_cons.1 ((insertByZ_perm z x ys).subset hb) with hb1 | hb2
      · rw [hb1]
        exact hle
      · exact hy b hb2
    · simp only [insertByZ, if_neg hle]
      have hxley : z x ≤ z y := le_of_not_le hle
      refine List.pairwise_cons.2 ⟨?_, h⟩
      intro b hb
      rcases List.mem_cons.1 hb with hb1 | hb2
      · rw [hb1]
        exact hxley
      · exact le_trans hxley (hy b hb2)

theorem insertByZ_filter_eq {α : Type} (z : α → ℚ) (k : ℚ) (x : α) (l : List α)
    (hsort : l.Pairwise (fun a b => z a ≤ z b)) (hx : z x = k) :
    (insertByZ z x l).filter (fun a => z a = k) =
      l.filter (fun a => z a = k) ++ [x] := by
  induction l with
  | nil => simp [insertByZ, hx]
  | cons y ys ih =>
    rcases List.pairwise_cons.1 hsort with ⟨hy, hys⟩
    by_cases hle : z y ≤ z x
    · simp only [insertByZ, if_pos hle, List.filter_cons]
      rw [ih hys]
      by_cases hyk : z y = k <;> simp [hyk]
    · have hlt : k < z y := by
        rw [← hx]
        exact lt_of_not_le hle
      have hnil : (y :: ys).filter (fun a => z a = k) = [] := by
        rw [List.filter_eq_nil_iff]
        intro a ha
        rcases List.mem_cons.1 ha with h1 | h2
        · rw [h1]
          simp only [decide_eq_true_eq]
          exact ne_of_gt hlt
        · simp only [decide_eq_true_eq]
          exact ne_of_gt (lt_of_lt_of_le hlt (hy a h2))
      simp only [insertByZ, if_neg hle]
      rw [List.filter_cons_of_pos (by simp [hx]), hnil]
      simp

theorem insertByZ_filter_ne {α : Type} (z : α → ℚ) (k : ℚ) (x : α) (l : List α)
    (hx : z x ≠ k) :
    (insertByZ z x l).filter (fun a => z a = k) = l.filter (fun a => z a = k) := by
  induction l with
  | nil => simp [insertByZ, hx]
  | cons y ys ih =>
    by_cases hle : z y ≤ z x
    · simp only [insertByZ, if_pos hle, List.filter_cons]
      rw [ih]
    · simp only [insertByZ, if_neg hle, List.filter_cons]
      simp [hx]

theorem stableSortByZ_go_sorted {α : Type} (z : α → ℚ) :
    ∀ (l acc : List α), acc.Pairwise (fun a b => z a ≤ z b) →
      (l.foldl (fun acc x => insertByZ z x acc) acc).Pairwise (fun a b => z a ≤ z b)
  | [], _, h => h
  | x :: xs, acc, h => by
    simp only [List.foldl_cons]
    exact stableSortByZ_go_sorted z xs (insertByZ z x acc) (insertByZ_sorted z x acc h)

theorem stableSortByZ_go_perm {α : Type} (z : α → ℚ) :
    ∀ (l acc : List α),
      List.Perm (l.foldl (fun acc x => insertByZ z x acc) acc) (acc ++ l)
  | [], acc => by simp
  | x :: xs, acc => by
    simp only [List.foldl_cons]
    refine List.Perm.trans (stableSortByZ_go_perm z xs (insertByZ z x acc)) ?_
    refine List.Perm.trans ((insertByZ_perm z x acc).append_right xs) ?_
    exact List.perm_middle.symm

theorem stableSortByZ_go_filter {α : Type} (z : α → ℚ) (k : ℚ) :
    ∀ (l acc : List α), acc.Pairwise (fun a b => z a ≤ z b) →
      (l.foldl (fun acc x => insertByZ z x acc) acc).filter (fun a => z a = k) =
        acc.filter (fun a => z a = k) ++ l.filter (fun a => z a = k)
  | [], acc, _ => by simp
  | x :: xs, acc, h => by
    simp only [List.foldl_cons]
    rw [stableSortByZ_go_filter z k xs (insertByZ z x acc) (insertByZ_sorted z x acc h)]
    by_cases hx : z x = k
    · rw [insertByZ_filter_eq z k x acc h hx]
      simp [List.filter_cons, hx]
    · rw [insertByZ_filter_ne z k x acc hx]
      simp [List.filter_cons, hx]

theorem stableSortByZ_sorted {α : Type} (z : α → ℚ) (l : List α) :
    (stableSortByZ z l).Pairwise (fun a b => z a ≤ z b) :=
  stableSortByZ_go_sorted z l [] List.Pairwise.nil

theorem stableSortByZ_perm {α : Type} (z : α → ℚ) (l : List α) :
    List.Perm (stableSortByZ z l) l := by
  simpa using stableSortByZ_go_perm z l []

theorem stableSortByZ_filter {α : Type} (z : α → ℚ) (k : ℚ) (l : List α) :
    (stableSortByZ z l).filter (fun a => z a = k) = l.filter (fun a => z a = k) := by
  simpa using stableSortByZ_go_filter z k l [] List.Pairwise.nil

/-- Claim C3 (confirmed): the combined layer list puts all stickers
before all text overlays; the sort by `z` is a stable ascending sort
(every two equal-`z` layers keep their relative order, expressed by the
filter characterisation, and the result is a sorted permutation); on the
claim's example, tags with z-keys [5,3,5,1] come out in the order
[1, 3, 5 (first), 5 (second)]. -/
theorem layer_sort_stable_by_z :
    (∀ l : List BaseProcessor.Layer,
      (stableSortByZ (fun a => a.z) l).Pairwise (fun a b => a.z ≤ b.z) ∧
      List.Perm (stableSortByZ (fun a => a.z) l) l ∧
      ∀ k : ℚ, (stableSortByZ (fun a => a.z) l).filter (fun a => a.z = k) =
        l.filter (fun a => a.z = k)) ∧
    (∀ (request : BaseProcessor.MediaRequest) (stickerTags textTags : List String),
      BaseProcessor.makeLayers request stickerTags textTags =
        request.stickers.mapIdx
          (fun i s => ⟨s.z, stickerTags.getD i "", BaseProcessor.LayerData.stickerD s⟩) ++
        request.textOverlays.mapIdx
          (fun i t => ⟨t.z, textTags.getD i "", BaseProcessor.LayerData.textD t⟩)) ∧
    (stableSortByZ (fun a => a.z)
      ([⟨5, "A", BaseProcessor.LayerData.stickerD ⟨"s1", ⟨0, 0⟩, none, 1, 0, 5, 1⟩⟩,
        ⟨3, "B", BaseProcessor.LayerData.stickerD ⟨"s2", ⟨0, 0⟩, none, 1, 0, 3, 1⟩⟩,
        ⟨5, "C", BaseProcessor.LayerData.stickerD ⟨"s3", ⟨0, 0⟩, none, 1, 0, 5, 1⟩⟩,
        ⟨1, "D", BaseProcessor.LayerData.stickerD ⟨"s4", ⟨0, 0⟩, none, 1, 0, 1, 1⟩⟩] :
        List BaseProcessor.Layer)).map (fun a => a.tag) = ["D", "B", "A", "C"] := by
  refine ⟨?_, ?_, ?_⟩
  · intro l
    exact ⟨stableSortByZ_sorted _ l, stableSortByZ_perm _ l,
      fun k => stableSortByZ_filter _ k l⟩
  · intro request stickerTags textTags
    rfl
  · decide

set_option maxRecDepth 8000 in
/-- Claim C6 (counterexample): the image builder's drawtext statement for
a concrete overlay contains no line-spacing parameter at all, while the
worker builder's drawtext for the same overlay carries
`line_spacing=19` — which is the floor of 80% of the 24 px font size,
not 80% exactly. -/
theorem image_drawtext_has_no_line_spacing :
    ¬ List.IsInfix ("line_spacing".toList)
      (((BaseProcessor.buildTextFilters fontResolverFixed
          sceneTextOnly.textOverlays (BaseProcessor.getCanvas false)).getD 1
          ⟨"", ""⟩).filter.toList) ∧
    List.IsInfix (":line_spacing=19".toList)
      (((WorkerVideo.textLayerChains "/assets/fonts/Poppins-Medium.ttf" wtextSample
          1080 1920 0 "base0").1.getD 1 "").toList) ∧
    WorkerVideo.lineSpacingOf 24 = 19 ∧ (19 : ℚ) ≠ (4 / 5) * 24 :=
  ⟨by decide, by decide, by decide, by norm_num⟩

/-- Claim C6 (amended): both builders compute the font size as the same
linear scale against the 400×200 px → 24 px baseline, floored, with
minimum 8; the worker builder renders text with a line spacing equal to
the floor of 80% of that font size, while the image/video processors'
drawtext statements carry no line-spacing parameter. -/
theorem font_size_shared_line_spacing_worker_only (boxW canvasH fs : ℤ) :
    BaseProcessor.calculateFontSize boxW canvasH = WorkerVideo.fontSizeOf boxW canvasH ∧
    8 ≤ BaseProcessor.calculateFontSize boxW canvasH ∧
    BaseProcessor.calculateFontSize boxW canvasH =
      max 8 ⌊(24 : ℚ) * min ((boxW : ℚ) / 400) ((canvasH : ℚ) / 200)⌋ ∧
    WorkerVideo.lineSpacingOf fs = ⌊(fs : ℚ) * (4 / 5)⌋ := by
  refine ⟨rfl, le_max_left _ _, ?_, ?_⟩
  · show (8 : ℤ) ⊔ Rat.floor (qMul 24 (Rat.divInt boxW 400 ⊓ Rat.divInt canvasH 200)) = _
    rw [ratFloor_eq, qMul_eq, Rat.divInt_eq_div, Rat.divInt_eq_div]
    norm_num
  · show Rat.floor (qMul (fs : ℚ) (Rat.divInt 4 5)) = _
    rw [ratFloor_eq, qMul_eq, Rat.divInt_eq_div]
    norm_num

theorem clamp255_some_bounds (q : ℚ) :
    MediaColor.clamp255 (some q) = some (max 0 (min 255 (jround q))) ∧
    0 ≤ max 0 (min 255 (jround q)) ∧ max 0 (min 255 (jround q)) ≤ 255 :=
  ⟨rfl, le_max_left _ _, max_le (by norm_num) (min_le_left _ _)⟩

set_option maxRecDepth 8000 in
theorem toHex_two_upper_hex (v : ℤ) (h0 : 0 ≤ v) (h255 : v ≤ 255) :
    (MediaColor.toHex (some v)).toList.length = 2 ∧
    (MediaColor.toHex (some v)).toList.all isUpperHex = true := by
  have hv : v.toNat < 256 := by omega
  have key : ∀ n : Fin 256,
      (MediaColor.toHex (some ((n : ℕ) : ℤ))).toList.length = 2 ∧
      (MediaColor.toHex (some ((n : ℕ) : ℤ))).toList.all isUpperHex = true := by
    decide
  have hv' : ((v.toNat : ℕ) : ℤ) = v := Int.toNat_of_nonneg h0
  have := key ⟨v.toNat, hv⟩
  rwa [hv'] at this

/-- Claim C10 (counterexample): a color component matched by the regex
that fails numeric parsing (here `"."`) makes `rgbaToFFmpegColor` render
the three characters `NAN` in place of that component's two hex digits,
so the result is not of the shape `0xRRGGBB@a` with six hexadecimal
digits; a well-formed `rgb(r,g,b)` input is accepted with alpha 1. -/
theorem rgbaToFFmpegColor_nan_hex_digits :
    MediaColor.rgbaToFFmpegColor "rgb(.,0,0)" = "0xNAN0000@1" ∧
    (((MediaColor.rgbaToFFmpegColor "rgb(.,0,0)").toList.drop 2).take 6).all
      isUpperHex = false ∧
    (MediaColor.rgbaToFFmpegColor "rgb(.,0,0)").toList.length ≠ 10 := by
  decide

/-- Claim C10 (amended): `rgbaToFFmpegColor` is total; whenever the rgba
regex matches and the three color components parse as numbers, the
result is `0x` followed by exactly six uppercase hexadecimal digits and
`@` followed by the clamped alpha, whose numeric value (when it parses,
or defaults for a missing alpha group) always lies in [0, 1]; an
`rgb(r,g,b)` input with no alpha is accepted with alpha 1 rather than
falling back to opaque white, and unmatched inputs produce the
hex-literal or opaque-white fallback shapes. -/
theorem rgbaToFFmpegColor_shape (s : String) (c1 c2 c3 : List Char)
    (c4 : Option (List Char)) (q1 q2 q3 : ℚ)
    (hsearch : MediaColor.searchRgba s.toList = some (c1, c2, c3, c4))
    (h1 : MediaColor.jsNumber c1 = some q1)
    (h2 : MediaColor.jsNumber c2 = some q2)
    (h3 : MediaColor.jsNumber c3 = some q3) :
    (∃ d : List Char,
      MediaColor.rgbaToFFmpegColor s =
        "0x" ++ String.mk d ++ "@" ++ MediaColor.alphaStr
          (MediaColor.clampAlpha (match c4 with
            | some s4 => MediaColor.jsNumber s4
            | none => some 1)) ∧
      d.length = 6 ∧ d.all isUpperHex = true) ∧
    (∀ a0 : ℚ, MediaColor.clampAlpha (match c4 with
        | some s4 => MediaColor.jsNumber s4
        | none => some 1) = some a0 → 0 ≤ a0 ∧ a0 ≤ 1) ∧
    (c4 = none →
      MediaColor.clampAlpha (match c4 with
        | some s4 => MediaColor.jsNumber s4
        | none => some 1) = some 1 ∧
      MediaColor.alphaStr (some (1 : ℚ)) = "1") ∧
    MediaColor.rgbaToFFmpegColor "rgb(12,34,56)" = "0x0C2238@1" ∧
    MediaColor.rgbaToFFmpegColor "not-a-color" = "0xFFFFFF@1" ∧
    MediaColor.rgbaToFFmpegColor "#ff8800" = "0xFF8800@1" := by
  obtain ⟨hc1, hl1, hr1⟩ := clamp255_some_bounds q1
  obtain ⟨hc2, hl2, hr2⟩ := clamp255_some_bounds q2
  obtain ⟨hc3, hl3, hr3⟩ := clamp255_some_bounds q3
  obtain ⟨hL1, hA1⟩ := toHex_two_upper_hex _ hl1 hr1
  obtain ⟨hL2, hA2⟩ := toHex_two_upper_hex _ hl2 hr2
  obtain ⟨hL3, hA3⟩ := toHex_two_upper_hex _ hl3 hr3
  simp only [String.toList] at hL1 hA1 hL2 hA2 hL3 hA3
  have e : ∀ u v : String, u ++ v = ⟨u.data ++ v.data⟩ := fun _ _ => rfl
  have halpha : ∀ (o : Option ℚ) (a0 : ℚ),
      MediaColor.clampAlpha o = some a0 → 0 ≤ a0 ∧ a0 ≤ 1 := by
    intro o a0 ha
    rcases o with _ | a1
    · cases ha
    · have ha0 : a0 = max 0 (min 1 a1) := by
        simpa [MediaColor.clampAlpha] using ha.symm
      rw [ha0]
      exact ⟨le_max_left _ _, max_le (by norm_num) (min_le_left _ _)⟩
  rcases c4 with _ | s4
  · refine ⟨⟨(MediaColor.toHex (MediaColor.clamp255 (MediaColor.jsNumber c1))).data ++
      ((MediaColor.toHex (MediaColor.clamp255 (MediaColor.jsNumber c2))).data ++
       (MediaColor.toHex (MediaColor.clamp255 (MediaColor.jsNumber c3))).data),
      ?_, ?_, ?_⟩, ?_, ?_, by decide, by decide, by decide⟩
    · simp only [MediaColor.rgbaToFFmpegColor, hsearch]
      rw [e, e, e, e, e, e, e, e]
      simp [List.append_assoc]
    · rw [h1, h2, h3, hc1, hc2, hc3]
      simp only [List.length_append, hL1, hL2, hL3]
    · rw [h1, h2, h3, hc1, hc2, hc3]
      simp only [List.all_append, hA1, hA2, hA3, Bool.and_self]
    · intro a0 ha
      exact halpha _ a0 ha
    · intro _
      refine ⟨?_, by decide⟩
      show MediaColor.clampAlpha (some 1) = some 1
      simp [MediaColor.clampAlpha]
  · refine ⟨⟨(MediaColor.toHex (MediaColor.clamp255 (MediaColor.jsNumber c1))).data ++
      ((MediaColor.toHex (MediaColor.clamp255 (MediaColor.jsNumber c2))).data ++
       (MediaColor.toHex (MediaColor.clamp255 (MediaColor.jsNumber c3))).data),
      ?_, ?_, ?_⟩, ?_, ?_, by decide, by decide, by decide⟩
    · simp only [MediaColor.rgbaToFFmpegColor, hsearch]
      rw [e, e, e, e, e, e, e, e]
      simp [List.append_assoc]
    · rw [h1, h2, h3, hc1, hc2, hc3]
      simp only [List.length_append, hL1, hL2, hL3]
    · rw [h1, h2, h3, hc1, hc2, hc3]
      simp only [List.all_append, hA1, hA2, hA3, Bool.and_self]
    · intro a0 ha
      exact halpha _ a0 ha
    · intro h4
      cases h4

/-- Witness for `rgbaToFFmpegColor_shape` at `rgba(255,0,0,0.5)`. -/
theorem rgbaToFFmpegColor_shape_witness :
    MediaColor.searchRgba ("rgba(255,0,0,0.5)").toList =
      some (['2', '5', '5'], ['0'], ['0'], some ['0', '.', '5']) ∧
    MediaColor.jsNumber ['2', '5', '5'] = some 255 ∧
    MediaColor.jsNumber ['0'] = some 0 ∧
    ((∃ d : List Char,
      MediaColor.rgbaToFFmpegColor "rgba(255,0,0,0.5)" =
        "0x" ++ String.mk d ++ "@" ++ MediaColor.alphaStr
          (MediaColor.clampAlpha (match (some ['0', '.', '5'] : Option (List Char)) with
            | some s4 => MediaColor.jsNumber s4
            | none => some 1)) ∧
      d.length = 6 ∧ d.all isUpperHex = true) ∧
    (∀ a0 : ℚ, MediaColor.clampAlpha
        (match (some ['0', '.', '5'] : Option (List Char)) with
        | some s4 => MediaColor.jsNumber s4
        | none => some 1) = some a0 → 0 ≤ a0 ∧ a0 ≤ 1) ∧
    ((some ['0', '.', '5'] : Option (List Char)) = none →
      MediaColor.clampAlpha (match (some ['0', '.', '5'] : Option (List Char)) with
        | some s4 => MediaColor.jsNumber s4
        | none => some 1) = some 1 ∧
      MediaColor.alphaStr (some (1 : ℚ)) = "1") ∧
    MediaColor.rgbaToFFmpegColor "rgb(12,34,56)" = "0x0C2238@1" ∧
    MediaColor.rgbaToFFmpegColor "not-a-color" = "0xFFFFFF@1" ∧
    MediaColor.rgbaToFFmpegColor "#ff8800" = "0xFF8800@1") :=
  ⟨by decide, by decide, by decide,
   rgbaToFFmpegColor_shape "rgba(255,0,0,0.5)" ['2', '5', '5'] ['0'] ['0']
     (some ['0', '.', '5']) 255 0 0 (by decide) (by decide) (by decide) (by decide)⟩
